import Mathlib

/-! Verification of the Bot-Website documentation system: a shallow embedding
of the frontend documentation store (Pinia), the frontend fetch helpers, and
the Express documentation server routes, with theorems checking the specified
properties against these embeddings. -/

namespace BotWebsite

/-! Data model (customTypes). -/

/-- A recommended link item (`RecommendedItem` in customTypes). -/
structure RecommendedItem where
  title : String
  anchor : String
  category : String
  id : Nat
  page : String
  time : Nat
  icon : String
deriving DecidableEq, Repr

/-- One index entry: a category with its child page names
(`DocumentationIndexItem` in the frontend customTypes). -/
structure DocumentationIndexItem where
  category : String
  children : List String
deriving DecidableEq, Repr

/-- Backend index entry (`IndexItem` in the server customTypes): a category
with its child page names. -/
structure IndexItem where
  category : String
  children : List String
deriving DecidableEq, Repr

/-- Display metadata for a category (`FolderItem` in customTypes). -/
structure FolderItem where
  category : String
  icon : String
  name : String
deriving DecidableEq, Repr

/-- Raw HTML content wrapper (`DocumentationFile` in customTypes). -/
structure DocumentationFile where
  file : String
deriving DecidableEq, Repr

/-- Response shape of `/getIndex` (`DocumentationIndexResponse`). -/
structure DocumentationIndexResponse where
  index : List DocumentationIndexItem
deriving DecidableEq, Repr

/-- Response shape of `/getCategories` (`DocumentationCategoriesRepsponse`,
name as spelled in the source). -/
structure DocumentationCategoriesRepsponse where
  categories : List FolderItem
deriving DecidableEq, Repr

/-- Response shape of `/getRecommendedItems`. -/
structure RecommendedItemsResponse where
  recommended_items : List RecommendedItem
deriving DecidableEq, Repr

/-- Response shape of `/refresh` (also consumed by the store's `refresh`). -/
structure RefreshResponse where
  docIndex : List DocumentationIndexItem
  guideIndex : List DocumentationIndexItem
  recommendedDocItems : List RecommendedItem
  recommendedGuideItems : List RecommendedItem
deriving DecidableEq, Repr

/-- A frontend fetch helper resolves to either the typed data or a boolean
sentinel (the source functions return `T | boolean`; the store only checks
`typeof data === "boolean"`). -/
inductive FetchValue (α : Type) where
  | bool (b : Bool)
  | data (a : α)
deriving DecidableEq, Repr

/-! Frontend documentation store (Pinia `DocumentationStore`). -/

/-- The store state: the four cached collections plus version and language. -/
structure StoreState where
  docIndex : List DocumentationIndexItem
  guideIndex : List DocumentationIndexItem
  recommendedDocItems : List RecommendedItem
  recommendedGuideItems : List RecommendedItem
  version : String
  language : String
deriving DecidableEq, Repr

/-- The two index storage slots (`"docIndex" | "guideIndex"`). -/
inductive IndexKey where
  | docIndex
  | guideIndex
deriving DecidableEq, Repr

/-- The two recommended-item storage slots
(`"recommendedDocItems" | "recommendedGuideItems"`). -/
inductive RecommendedKey where
  | recommendedDocItems
  | recommendedGuideItems
deriving DecidableEq, Repr

/-- Mirrors `let convertedType = "docIndex"; if (type === "Guide")
convertedType = "guideIndex"` — the type-to-index-slot conversion shared by
`getIndex`, `validateFolder` and `getCategoryList`. -/
def convertedIndexType (type_ : String) : IndexKey :=
  if type_ = "Guide" then IndexKey.guideIndex else IndexKey.docIndex

/-- The same conversion for the recommended-item slots, as in
`getRecommendedItems`. -/
def convertedRecommendedType (type_ : String) : RecommendedKey :=
  if type_ = "Guide" then RecommendedKey.recommendedGuideItems
  else RecommendedKey.recommendedDocItems

/-- Read an index slot (`this[convertedType]`). -/
def StoreState.indexSlot (s : StoreState) : IndexKey → List DocumentationIndexItem
  | IndexKey.docIndex => s.docIndex
  | IndexKey.guideIndex => s.guideIndex

/-- Write an index slot (`this[convertedType] = ...`). -/
def StoreState.setIndexSlot (s : StoreState) (k : IndexKey)
    (v : List DocumentationIndexItem) : StoreState :=
  match k with
  | IndexKey.docIndex => { s with docIndex := v }
  | IndexKey.guideIndex => { s with guideIndex := v }

/-- Read a recommended-items slot. -/
def StoreState.recommendedSlot (s : StoreState) : RecommendedKey → List RecommendedItem
  | RecommendedKey.recommendedDocItems => s.recommendedDocItems
  | RecommendedKey.recommendedGuideItems => s.recommendedGuideItems

/-- Write a recommended-items slot. -/
def StoreState.setRecommendedSlot (s : StoreState) (k : RecommendedKey)
    (v : List RecommendedItem) : StoreState :=
  match k with
  | RecommendedKey.recommendedDocItems => { s with recommendedDocItems := v }
  | RecommendedKey.recommendedGuideItems => { s with recommendedGuideItems := v }

/-- Outcome of a store accessor call: the returned array, the state after the
call, and whether the fetch helper was invoked. -/
structure GetIndexResult where
  result : List DocumentationIndexItem
  state : StoreState
  fetchInvoked : Bool
deriving DecidableEq, Repr

/-- Outcome of `getRecommendedItems`. -/
structure GetRecommendedResult where
  result : List RecommendedItem
  state : StoreState
  fetchInvoked : Bool
deriving DecidableEq, Repr

/-- The store action `getIndex(force, type)`. The value the fetch helper
would resolve to is passed as `fetchResult`; `fetchInvoked` records whether
the code path actually awaits it. -/
def getIndex (s : StoreState) (force : Bool) (type_ : String)
    (fetchResult : FetchValue DocumentationIndexResponse) : GetIndexResult :=
  let convertedType := convertedIndexType type_
  if (s.indexSlot convertedType).length = 0 ∨ force = true then
    match fetchResult with
    | FetchValue.bool _ => ⟨s.indexSlot convertedType, s, true⟩
    | FetchValue.data d => ⟨d.index, s.setIndexSlot convertedType d.index, true⟩
  else ⟨s.indexSlot convertedType, s, false⟩

/-- The store action `getRecommendedItems(force, type)`. -/
def getRecommendedItems (s : StoreState) (force : Bool) (type_ : String)
    (fetchResult : FetchValue RecommendedItemsResponse) : GetRecommendedResult :=
  let convertedType := convertedRecommendedType type_
  if (s.recommendedSlot convertedType).length = 0 ∨ force = true then
    match fetchResult with
    | FetchValue.bool _ => ⟨s.recommendedSlot convertedType, s, true⟩
    | FetchValue.data d =>
        ⟨d.recommended_items, s.setRecommendedSlot convertedType d.recommended_items, true⟩
  else ⟨s.recommendedSlot convertedType, s, false⟩

/-- The store action `validateFolder(folder, type)`: `undefined` and the empty
string are falsy (`if (!folder) return;`), otherwise the first index item of
the selected slot whose category equals `folder`
(`filter(...)[0]`). Pure: reads only the cached index. -/
def validateFolder (s : StoreState) (folder : Option String) (type_ : String) :
    Option DocumentationIndexItem :=
  let convertedType := convertedIndexType type_
  match folder with
  | none => none
  | some f =>
      if f = "" then none
      else ((s.indexSlot convertedType).filter (fun indexItem => indexItem.category == f)).head?

/-- The store action `validatePage(folder, name, type)`: falsy `folder` or
`name` gives `false`; otherwise the page name must occur among the children of
the folder found by `validateFolder`. Pure: reads only the cached index. -/
def validatePage (s : StoreState) (folder name : Option String) (type_ : String) : Bool :=
  match folder, name with
  | some f, some n =>
      if f = "" ∨ n = "" then false
      else
        match validateFolder s (some f) type_ with
        | none => false
        | some target => 0 < (target.children.filter (fun child => child == n)).length
  | _, _ => false

/-- The store action `refresh()`: on a boolean fetch result return
immediately, otherwise overwrite all four cached collections from the
response. -/
def refresh (s : StoreState) (fetchResult : FetchValue RefreshResponse) : StoreState :=
  match fetchResult with
  | FetchValue.bool _ => s
  | FetchValue.data d =>
      { s with
        docIndex := d.docIndex
        guideIndex := d.guideIndex
        recommendedDocItems := d.recommendedDocItems
        recommendedGuideItems := d.recommendedGuideItems }

/-- The store action `getCategoryList(type, categoryName)`:
`filter(...)[0]?.children` — `none` models the `undefined` produced by the
optional chaining when no index item matches. -/
def getCategoryList (s : StoreState) (type_ : String) (categoryName : String) :
    Option (List String) :=
  let convertedType := convertedIndexType type_
  (((s.indexSlot convertedType).filter
      (fun indexItem => indexItem.category == categoryName)).head?).map
    (fun indexItem => indexItem.children)

/-! Backend file store accessor. -/

/-- State of one filesystem path: present with content, readable-path error,
or absent. -/
inductive FileEntry where
  | present (content : String)
  | readError
  | absent
deriving DecidableEq, Repr

/-- A filesystem keyed by `(version, language, type, folder, name)`. -/
def FileSystem : Type :=
  String → String → String → String → String → FileEntry

/-- Modelled from the spec: the File Store Accessor's `getFile` lives in the
server's `utils/file` module, which is not among the provided sources; per
spec section 4.1 it takes the identity-key parameters, resolves a path on
disk, and returns the parsed content or a numeric HTTP-style status — 404 on
a missing path/file, 500 on a read error. The filesystem is modelled as
`FileSystem`; the parameter order matches the call site
`getFile(folder, name, version, language, type)`. -/
def getFile (fs : FileSystem) (folder name version language type_ : String) :
    Sum Nat DocumentationFile :=
  match fs version language type_ folder name with
  | FileEntry.present content => Sum.inr ⟨content⟩
  | FileEntry.readError => Sum.inl 500
  | FileEntry.absent => Sum.inl 404

/-! Express routes. -/

/-- What a route handler sends: a bare status code (`res.sendStatus`) or a
JSON body (`res.json`). -/
inductive RouteResponse (α : Type) where
  | status (code : Nat)
  | json (body : α)
deriving DecidableEq, Repr

/-- The `/getFile/:version/:language/:type` handler: numeric accessor result
becomes a bare status, otherwise the JSON body is the wrapper object. -/
def getFileRoute (fs : FileSystem) (version language type_ folder name : String) :
    RouteResponse DocumentationFile :=
  match getFile fs folder name version language type_ with
  | Sum.inl n => RouteResponse.status n
  | Sum.inr file => RouteResponse.json file

/-- The server's placeholder recommended item. -/
def placeholder : RecommendedItem :=
  { title := "None_Available"
    anchor := ""
    category := ""
    id := 1
    page := ""
    time := 1
    icon := "" }

/-- Signature of the backend `getIndex(version, language, type)` accessor
(in `utils/file`, not among the provided sources): an index or a numeric
status. The routes are modelled as functions of this accessor. -/
def IndexAccessor : Type :=
  String → String → String → Sum Nat (List IndexItem)

/-- Signature of the backend `getRecommendedItems(language, type)` accessor. -/
def RecommendedAccessor : Type :=
  String → String → Sum Nat (List RecommendedItem)

/-- One backend accessor invocation, recorded in order by the modelled
handlers. -/
inductive AccessorCall where
  | indexCall (version language type_ : String)
  | recommendedCall (language type_ : String)
deriving DecidableEq, Repr

/-- A handler outcome together with the ordered list of accessor calls it
performed. -/
structure RouteOutcome (α : Type) where
  response : RouteResponse α
  calls : List AccessorCall
deriving DecidableEq, Repr

/-- Body of the `/refresh` JSON response. -/
structure RefreshBody where
  docIndex : List IndexItem
  guideIndex : List IndexItem
  recommendedDocItems : List RecommendedItem
  recommendedGuideItems : List RecommendedItem
deriving DecidableEq, Repr

/-- The `/refresh/:version/:language` handler: fetches the Doc index, the
Guide index, the Doc recommended items and the Guide recommended items in
order, returning the first numeric result as a bare status; an empty
recommended list gets the placeholder pushed (`push` on the empty array gives
the one-element list). -/
def refreshRoute (gi : IndexAccessor) (gri : RecommendedAccessor)
    (version language : String) : RouteOutcome RefreshBody :=
  match gi version language "Doc" with
  | Sum.inl n =>
      ⟨RouteResponse.status n, [AccessorCall.indexCall version language "Doc"]⟩
  | Sum.inr docIndex =>
    match gi version language "Guide" with
    | Sum.inl n =>
        ⟨RouteResponse.status n,
          [AccessorCall.indexCall version language "Doc",
           AccessorCall.indexCall version language "Guide"]⟩
    | Sum.inr guideIndex =>
      match gri language "Doc" with
      | Sum.inl n =>
          ⟨RouteResponse.status n,
            [AccessorCall.indexCall version language "Doc",
             AccessorCall.indexCall version language "Guide",
             AccessorCall.recommendedCall language "Doc"]⟩
      | Sum.inr recommendedDocItems =>
        let recommendedDocItems :=
          if recommendedDocItems.length = 0 then recommendedDocItems ++ [placeholder]
          else recommendedDocItems
        match gri language "Guide" with
        | Sum.inl n =>
            ⟨RouteResponse.status n,
              [AccessorCall.indexCall version language "Doc",
               AccessorCall.indexCall version language "Guide",
               AccessorCall.recommendedCall language "Doc",
               AccessorCall.recommendedCall language "Guide"]⟩
        | Sum.inr recommendedGuideItems =>
          let recommendedGuideItems :=
            if recommendedGuideItems.length = 0 then recommendedGuideItems ++ [placeholder]
            else recommendedGuideItems
          ⟨RouteResponse.json
              ⟨docIndex, guideIndex, recommendedDocItems, recommendedGuideItems⟩,
            [AccessorCall.indexCall version language "Doc",
             AccessorCall.indexCall version language "Guide",
             AccessorCall.recommendedCall language "Doc",
             AccessorCall.recommendedCall language "Guide"]⟩

/-- The `/getRecommendedItems/:language/:type` handler: numeric result becomes
a bare status; an empty list gets the placeholder pushed before the JSON
response. -/
def getRecommendedItemsRoute (gri : RecommendedAccessor) (language type_ : String) :
    RouteResponse (List RecommendedItem) :=
  match gri language type_ with
  | Sum.inl n => RouteResponse.status n
  | Sum.inr data =>
      RouteResponse.json (if data.length = 0 then data ++ [placeholder] else data)

/-! Deploy listener (queue consumer). -/

/-- The parsed shape of an Uplink message (`UplinkMessage`). -/
structure UplinkMessage where
  task : String
  sender : String
deriving DecidableEq, Repr

/-- The content of a delivered queue message, as seen by `JSON.parse`: either
a string that parses to an `UplinkMessage`, or one that is not valid JSON
(on which `JSON.parse` throws). -/
inductive MessageContent where
  | validJson (m : UplinkMessage)
  | invalidJson (raw : String)
deriving DecidableEq, Repr

/-- Models `JSON.parse(message.content.toString())`: the parsed message, or
`none` when parsing throws. -/
def parseUplink : MessageContent → Option UplinkMessage
  | MessageContent.validJson m => some m
  | MessageContent.invalidJson _ => none

/-- Observable outcome of the consumer callback on one delivered message. -/
structure ConsumeOutcome where
  acked : Bool
  scriptExecuted : Bool
  parseErrored : Bool
deriving DecidableEq, Repr

/-- The `channel.consume` callback: parse the content as JSON (a throw aborts
the callback before the ack), acknowledge, and run `bash deploy.sh` only when
`task === "Deploy"` and `process.platform === "linux"`. -/
def consumeMessage (platform : String) (content : MessageContent) : ConsumeOutcome :=
  match parseUplink content with
  | none => ⟨false, false, true⟩
  | some messageContent =>
      ⟨true, messageContent.task == "Deploy" && platform == "linux", false⟩

/-! Frontend fetch helpers (`utils/fetch.ts`). -/

/-- An HTTP response as seen by `fetch`: a status code and a parsed JSON
body. `response.ok` is true exactly for statuses 200–299. -/
structure FetchResponse (β : Type) where
  status : Nat
  body : β
deriving DecidableEq, Repr

/-- Models `response.ok`. -/
def FetchResponse.ok {β : Type} (r : FetchResponse β) : Bool :=
  200 ≤ r.status && r.status ≤ 299

/-- A fetch attempt either yields a response or throws (network error). -/
inductive FetchAttempt (β : Type) where
  | response (r : FetchResponse β)
  | thrown (error : String)
deriving DecidableEq, Repr

/-- The helper `fetchDocumentationIndex`: ok response returns the JSON body, status 404
returns the empty-but-successful `index: []`, any other non-ok response and
any thrown error return `false`. -/
def fetchDocumentationIndex (attempt : FetchAttempt DocumentationIndexResponse) :
    FetchValue DocumentationIndexResponse :=
  match attempt with
  | FetchAttempt.thrown _ => FetchValue.bool false
  | FetchAttempt.response r =>
      if r.ok then FetchValue.data r.body
      else if r.status = 404 then FetchValue.data ⟨[]⟩
      else FetchValue.bool false

/-- The helper `fetchDocumentationCategories`: same shape as `fetchDocumentationIndex`
with the empty-but-successful result `categories: []`. -/
def fetchDocumentationCategories (attempt : FetchAttempt DocumentationCategoriesRepsponse) :
    FetchValue DocumentationCategoriesRepsponse :=
  match attempt with
  | FetchAttempt.thrown _ => FetchValue.bool false
  | FetchAttempt.response r =>
      if r.ok then FetchValue.data r.body
      else if r.status = 404 then FetchValue.data ⟨[]⟩
      else FetchValue.bool false

/-! Claim-side reading, used to compare spec wording with the code. -/

/-- Claim-side definition, written from the spec's words (not from the code):
"`validatePage(folder, name, type)` is true iff `name` appears in the
children of the index entry whose category equals `folder`", with the index
selected by `type` and "the entry" read as the first entry with that
category. To be compared with `validatePage`. -/
def specValidatePage (s : StoreState) (folder name type_ : String) : Bool :=
  match (s.indexSlot (convertedIndexType type_)).find?
      (fun indexItem => indexItem.category == folder) with
  | some entry => decide (name ∈ entry.children)
  | none => false

/-! Concrete fixtures used by witness theorems and counterexamples. -/

/-- A concrete filesystem: one present documentation file, everything else
absent. -/
def exampleFs : FileSystem := fun version language type_ folder name =>
  if version = "v1" ∧ language = "en-US" ∧ type_ = "Doc" ∧
      folder = "Get_Started" ∧ name = "Introduction" then
    FileEntry.present "intro-page"
  else FileEntry.absent

/-- A concrete backend index accessor that always succeeds. -/
def exampleIndexAccessor : IndexAccessor := fun _ _ type_ =>
  if type_ = "Guide" then Sum.inr [⟨"Guides", ["Setup"]⟩]
  else Sum.inr [⟨"Get_Started", ["Introduction"]⟩]

/-- A concrete backend index accessor that always fails with 404. -/
def exampleErrorIndexAccessor : IndexAccessor := fun _ _ _ => Sum.inl 404

/-- A concrete backend recommended-items accessor returning the empty list. -/
def exampleEmptyRecommendedAccessor : RecommendedAccessor := fun _ _ => Sum.inr []

/-- A concrete store state with non-empty caches. -/
def exampleState : StoreState :=
  { docIndex := [⟨"Get_Started", ["Introduction", "Quickstart"]⟩]
    guideIndex := [⟨"Guides", ["Setup"]⟩]
    recommendedDocItems := [placeholder]
    recommendedGuideItems := [placeholder]
    version := "v1"
    language := "en-US" }

/-- A store state whose doc index contains an entry with the empty string as
its category. -/
def emptyCategoryState : StoreState :=
  { docIndex := [⟨"", ["x"]⟩]
    guideIndex := []
    recommendedDocItems := []
    recommendedGuideItems := []
    version := "v1"
    language := "en-US" }

/-! Helper lemmas shared by the claim theorems. -/

/-- JavaScript's `filter(...)[0]` agrees with `find?`: the head of the
filtered list is the first element satisfying the predicate. -/
theorem head?_filter_eq_find? {α : Type} (p : α → Bool) (l : List α) :
    (l.filter p).head? = l.find? p := by
  induction l with
  | nil => rfl
  | cons a t ih =>
      by_cases h : p a = true
      · simp [List.filter_cons, List.find?_cons, h]
      · simp [List.filter_cons, List.find?_cons, h, ih]

/-- The membership test `0 < children.filter(child => child === name).length`
agrees with list membership. -/
theorem length_filter_beq_pos_iff (l : List String) (n : String) :
    0 < (l.filter (fun child => child == n)).length ↔ n ∈ l := by
  induction l with
  | nil => simp
  | cons a t ih =>
      by_cases h : a = n
      · subst h
        simp [List.filter_cons]
      · simp [List.filter_cons, h, ih, Ne.symm h]

/-! Claim theorems. -/

/-- Claim C1: for all valid `(version, language, type, folder, name)` with an
existing file, `getFile` returns that file's content and the `/getFile` route
responds with the JSON wrapper `file: content`; for any nonexistent
combination it returns the numeric status 404, which the route sends as a
bare status code. -/
theorem getFile_route_correct (fs : FileSystem)
    (version language type_ folder name content : String) :
    (fs version language type_ folder name = FileEntry.present content →
      getFile fs folder name version language type_ = Sum.inr ⟨content⟩ ∧
      getFileRoute fs version language type_ folder name = RouteResponse.json ⟨content⟩) ∧
    (fs version language type_ folder name = FileEntry.absent →
      getFile fs folder name version language type_ = Sum.inl 404 ∧
      getFileRoute fs version language type_ folder name = RouteResponse.status 404) := by
  constructor <;> intro h <;> simp [getFile, getFileRoute, h]

/-- Witness for C1 on the concrete filesystem `exampleFs`. -/
theorem getFile_route_correct_witness :
    getFileRoute exampleFs "v1" "en-US" "Doc" "Get_Started" "Introduction" =
      RouteResponse.json ⟨"intro-page"⟩ ∧
    getFileRoute exampleFs "v1" "en-US" "Doc" "Get_Started" "Missing" =
      RouteResponse.status 404 :=
  ⟨((getFile_route_correct exampleFs "v1" "en-US" "Doc" "Get_Started" "Introduction"
      "intro-page").1 (by decide)).2,
   ((getFile_route_correct exampleFs "v1" "en-US" "Doc" "Get_Started" "Missing"
      "intro-page").2 (by decide)).2⟩

/-- Claim C3: when the fetch helper resolves to the boolean sentinel
(failure), `refresh` leaves all four cached collections unchanged (no partial
overwrite), and `getIndex` / `getRecommendedItems` leave their cache slot
unchanged and return the existing cached array. All three actions are total
functions of the state and the fetch outcome, so no exception propagates to
the caller. -/
theorem failed_fetch_preserves_cache (s : StoreState) (b : Bool) (force : Bool)
    (type_ : String) :
    refresh s (FetchValue.bool b) = s ∧
    (getIndex s force type_ (FetchValue.bool b)).state = s ∧
    (getIndex s force type_ (FetchValue.bool b)).result =
      s.indexSlot (convertedIndexType type_) ∧
    (getRecommendedItems s force type_ (FetchValue.bool b)).state = s ∧
    (getRecommendedItems s force type_ (FetchValue.bool b)).result =
      s.recommendedSlot (convertedRecommendedType type_) := by
  refine ⟨rfl, ?_, ?_, ?_, ?_⟩ <;>
    · dsimp only [getIndex, getRecommendedItems]
      split <;> rfl

/-- Claim C4: `getIndex(force=false, type)` on a non-empty cached index
returns the cached array without invoking the index fetch (state unchanged,
`fetchInvoked = false`); `getIndex(force=true, type)` always invokes the
fetch and, on success, overwrites the cache slot with the fetched index and
returns it. -/
theorem getIndex_force_policy (s : StoreState) (type_ : String)
    (fr : FetchValue DocumentationIndexResponse) (d : DocumentationIndexResponse) :
    (s.indexSlot (convertedIndexType type_) ≠ [] →
      getIndex s false type_ fr =
        ⟨s.indexSlot (convertedIndexType type_), s, false⟩) ∧
    (getIndex s true type_ fr).fetchInvoked = true ∧
    getIndex s true type_ (FetchValue.data d) =
      ⟨d.index, s.setIndexSlot (convertedIndexType type_) d.index, true⟩ := by
  refine ⟨?_, ?_, ?_⟩
  · intro h
    unfold getIndex
    rw [if_neg]
    simp [List.length_eq_zero, h]
  · unfold getIndex
    rw [if_pos (Or.inr rfl)]
    cases fr <;> rfl
  · unfold getIndex
    rw [if_pos (Or.inr rfl)]

/-- Witness for C4 on the concrete state `exampleState`. -/
theorem getIndex_force_policy_witness :
    getIndex exampleState false "Doc" (FetchValue.bool false) =
      ⟨exampleState.docIndex, exampleState, false⟩ ∧
    (getIndex exampleState true "Doc" (FetchValue.bool false)).fetchInvoked = true :=
  ⟨(getIndex_force_policy exampleState "Doc" (FetchValue.bool false) ⟨[]⟩).1
      (by decide),
   (getIndex_force_policy exampleState "Doc" (FetchValue.bool false) ⟨[]⟩).2.1⟩

/-- Counterexample to claim C5 as stated: with a cached index entry whose
category is the empty string, `validatePage("", "x", "Doc")` returns `false`
(the JavaScript falsiness guard `if (!folder || !name) return false` fires on
the empty string) even though `"x"` appears in the children of the index
entry whose category equals `""`, so the stated "if and only if" fails. -/
theorem validatePage_iff_counterexample :
    validatePage emptyCategoryState (some "") (some "x") "Doc" = false ∧
    specValidatePage emptyCategoryState "" "x" "Doc" = true := by
  exact ⟨rfl, by decide⟩

/-- Claim C5 (amended): for every type and all NON-EMPTY folder and name
strings, `validatePage(folder, name, type)` returns true iff `name` appears
in the children of the first cached index entry (of the index selected by
`type`) whose category equals `folder`; when folder or name is undefined or
the empty string it returns false. It is a pure function of the cached state
and performs no network call. -/
theorem validatePage_amended (s : StoreState) (f n type_ : String)
    (hf : f ≠ "") (hn : n ≠ "") :
    validatePage s (some f) (some n) type_ = specValidatePage s f n type_ ∧
    (∀ folder, validatePage s folder none type_ = false) ∧
    (∀ name, validatePage s none name type_ = false) ∧
    validatePage s (some f) (some "") type_ = false ∧
    validatePage s (some "") (some n) type_ = false := by
  refine ⟨?_, ?_, ?_, ?_, ?_⟩
  · dsimp only [validatePage, validateFolder, specValidatePage]
    rw [if_neg (by simp [hf, hn]), if_neg hf,
      head?_filter_eq_find? (fun indexItem : DocumentationIndexItem => indexItem.category == f)]
    cases (s.indexSlot (convertedIndexType type_)).find?
        (fun indexItem => indexItem.category == f) with
    | none => rfl
    | some entry =>
        exact decide_eq_decide.mpr (length_filter_beq_pos_iff entry.children n)
  · intro folder
    cases folder <;> rfl
  · intro name
    cases name <;> rfl
  · simp [validatePage]
  · simp [validatePage]

/-- Witness for the amended C5 on the concrete state `exampleState`. -/
theorem validatePage_amended_witness :
    validatePage exampleState (some "Get_Started") (some "Introduction") "Doc" =
      specValidatePage exampleState "Get_Started" "Introduction" "Doc" ∧
    validatePage exampleState (some "Get_Started") (some "Introduction") "Doc" = true :=
  ⟨(validatePage_amended exampleState "Get_Started" "Introduction" "Doc"
      (by decide) (by decide)).1, by decide⟩

/-- Claim C9: in every store operation taking a type parameter (`getIndex`,
`getRecommendedItems`, `validateFolder`, `getCategoryList`), any type string
other than exactly `"Guide"` — `"Doc"`, the empty string, or an arbitrary
invalid string — selects the Doc storage slot and behaves exactly like
`"Doc"`; no type value is rejected (the operations are total) and there is
no error path for unknown types. -/
theorem non_guide_type_selects_doc (s : StoreState) (type_ : String)
    (h : type_ ≠ "Guide") (force : Bool)
    (fi : FetchValue DocumentationIndexResponse)
    (fr : FetchValue RecommendedItemsResponse)
    (folder : Option String) (categoryName : String) :
    convertedIndexType type_ = IndexKey.docIndex ∧
    convertedRecommendedType type_ = RecommendedKey.recommendedDocItems ∧
    getIndex s force type_ fi = getIndex s force "Doc" fi ∧
    getRecommendedItems s force type_ fr = getRecommendedItems s force "Doc" fr ∧
    validateFolder s folder type_ = validateFolder s folder "Doc" ∧
    getCategoryList s type_ categoryName = getCategoryList s "Doc" categoryName := by
  have hi : convertedIndexType type_ = IndexKey.docIndex := by
    simp [convertedIndexType, h]
  have hr : convertedRecommendedType type_ = RecommendedKey.recommendedDocItems := by
    simp [convertedRecommendedType, h]
  have hid : convertedIndexType "Doc" = IndexKey.docIndex := rfl
  have hrd : convertedRecommendedType "Doc" = RecommendedKey.recommendedDocItems := rfl
  refine ⟨hi, hr, ?_, ?_, ?_, ?_⟩
  · simp only [getIndex, hi, hid]
  · simp only [getRecommendedItems, hr, hrd]
  · simp only [validateFolder, hi, hid]
  · simp only [getCategoryList, hi, hid]

/-- Witness for C9 at the unknown type string `""`. -/
theorem non_guide_type_selects_doc_witness :
    convertedIndexType "" = IndexKey.docIndex ∧
    getCategoryList exampleState "" "Get_Started" =
      getCategoryList exampleState "Doc" "Get_Started" :=
  ⟨(non_guide_type_selects_doc exampleState "" (by decide) false
      (FetchValue.bool false) (FetchValue.bool false) none "Get_Started").1,
   (non_guide_type_selects_doc exampleState "" (by decide) false
      (FetchValue.bool false) (FetchValue.bool false) none "Get_Started").2.2.2.2.2⟩

/-- Claim C10: `getCategoryList(type, categoryName)` returns `undefined`
(modelled `none`) rather than an array exactly when no entry of the selected
cached index has category equal to `categoryName` — in particular on an
empty cache — despite the declared return type `Array<string>`; when a
matching entry exists it returns the first such entry's children. -/
theorem getCategoryList_undefined_on_miss (s : StoreState) (type_ categoryName : String) :
    (getCategoryList s type_ categoryName = none ↔
      ∀ indexItem ∈ s.indexSlot (convertedIndexType type_),
        indexItem.category ≠ categoryName) ∧
    (s.indexSlot (convertedIndexType type_) = [] →
      getCategoryList s type_ categoryName = none) ∧
    (∀ entry, (s.indexSlot (convertedIndexType type_)).find?
        (fun indexItem => indexItem.category == categoryName) = some entry →
      getCategoryList s type_ categoryName = some entry.children) := by
  refine ⟨?_, ?_, ?_⟩
  · dsimp only [getCategoryList]
    rw [head?_filter_eq_find? (fun indexItem : DocumentationIndexItem => indexItem.category == categoryName)]
    simp [List.find?_eq_none]
  · intro h
    dsimp only [getCategoryList]
    rw [h]
    rfl
  · intro entry h
    dsimp only [getCategoryList]
    rw [head?_filter_eq_find? (fun indexItem : DocumentationIndexItem => indexItem.category == categoryName), h]
    rfl

/-- Witness for C10 on the concrete state `exampleState`: a missing category
gives `none`, an existing one gives its children. -/
theorem getCategoryList_undefined_on_miss_witness :
    getCategoryList exampleState "Doc" "Missing" = none ∧
    getCategoryList exampleState "Doc" "Get_Started" =
      some ["Introduction", "Quickstart"] :=
  ⟨(getCategoryList_undefined_on_miss exampleState "Doc" "Missing").1.mpr
      (by decide),
   (getCategoryList_undefined_on_miss exampleState "Doc" "Get_Started").2.2
      ⟨"Get_Started", ["Introduction", "Quickstart"]⟩ (by decide)⟩

/-- Counterexample to claim C6 as stated: a delivered message whose content
is not valid JSON is not acknowledged — `JSON.parse` throws before
`channel.ack(message)` runs — so "parses it as JSON and acknowledges it
unconditionally" fails for that message (and no script runs). -/
theorem consume_ack_counterexample :
    consumeMessage "linux" (MessageContent.invalidJson "not json") =
      ⟨false, false, true⟩ := rfl

/-- Claim C6 (amended): for every delivered queue message whose content
parses as JSON, the consumer acknowledges it unconditionally and the
deployment script is executed iff the parsed message's `task` equals
`"Deploy"` and the host platform is `"linux"`; in particular a parsed message
with `task !== "Deploy"` is acknowledged but triggers no script execution. A
message whose content is not valid JSON makes `JSON.parse` throw before the
acknowledgement, so it is neither acknowledged nor triggers the script. -/
theorem consume_deploy_dispatch (platform : String) (content : MessageContent)
    (m : UplinkMessage) :
    (parseUplink content = some m →
      (consumeMessage platform content).acked = true ∧
      ((consumeMessage platform content).scriptExecuted = true ↔
        (m.task = "Deploy" ∧ platform = "linux"))) ∧
    (parseUplink content = none →
      consumeMessage platform content = ⟨false, false, true⟩) := by
  constructor
  · intro h
    dsimp only [consumeMessage]
    rw [h]
    constructor
    · rfl
    · simp
  · intro h
    dsimp only [consumeMessage]
    rw [h]

/-- Witness for the amended C6 on concrete messages: a non-Deploy task is
acknowledged without script execution, a Deploy task on linux runs the
script. -/
theorem consume_deploy_dispatch_witness :
    (consumeMessage "linux" (MessageContent.validJson ⟨"Update", "SK Platform"⟩)).acked
      = true ∧
    (consumeMessage "linux" (MessageContent.validJson ⟨"Update", "SK Platform"⟩)).scriptExecuted
      = false ∧
    (consumeMessage "linux" (MessageContent.validJson ⟨"Deploy", "SK Platform"⟩)).scriptExecuted
      = true := by
  have h1 := (consume_deploy_dispatch "linux"
    (MessageContent.validJson ⟨"Update", "SK Platform"⟩) ⟨"Update", "SK Platform"⟩).1 rfl
  have h2 := (consume_deploy_dispatch "linux"
    (MessageContent.validJson ⟨"Deploy", "SK Platform"⟩) ⟨"Deploy", "SK Platform"⟩).1 rfl
  refine ⟨h1.1, ?_, h2.2.mpr (by decide)⟩
  by_contra hc
  simp only [Bool.not_eq_false] at hc
  have := h1.2.mp hc
  simp at this

/-- Claim C8: `fetchDocumentationIndex` and `fetchDocumentationCategories`
return the empty-but-successful result (`index: []` / `categories: []`)
exactly when the HTTP response status is 404, return the boolean failure
sentinel `false` for every other non-ok response and for every thrown fetch
error (and never produce `true`), and return the body on an ok response —
keeping the empty-success case distinct from true failure. -/
theorem fetch_404_empty_success
    (ri : FetchResponse DocumentationIndexResponse)
    (rc : FetchResponse DocumentationCategoriesRepsponse) (error : String) :
    (ri.ok = true →
      fetchDocumentationIndex (FetchAttempt.response ri) = FetchValue.data ri.body) ∧
    (ri.status = 404 →
      fetchDocumentationIndex (FetchAttempt.response ri) = FetchValue.data ⟨[]⟩) ∧
    (ri.ok = false → ri.status ≠ 404 →
      fetchDocumentationIndex (FetchAttempt.response ri) = FetchValue.bool false) ∧
    fetchDocumentationIndex (FetchAttempt.thrown error) = FetchValue.bool false ∧
    (∀ attempt, fetchDocumentationIndex attempt ≠ FetchValue.bool true) ∧
    (rc.ok = true →
      fetchDocumentationCategories (FetchAttempt.response rc) = FetchValue.data rc.body) ∧
    (rc.status = 404 →
      fetchDocumentationCategories (FetchAttempt.response rc) = FetchValue.data ⟨[]⟩) ∧
    (rc.ok = false → rc.status ≠ 404 →
      fetchDocumentationCategories (FetchAttempt.response rc) = FetchValue.bool false) ∧
    fetchDocumentationCategories (FetchAttempt.thrown error) = FetchValue.bool false ∧
    (∀ attempt, fetchDocumentationCategories attempt ≠ FetchValue.bool true) := by
  refine ⟨?_, ?_, ?_, rfl, ?_, ?_, ?_, ?_, rfl, ?_⟩
  · intro h
    simp [fetchDocumentationIndex, h]
  · intro h
    have hok : ri.ok = false := by
      simp [FetchResponse.ok, h]
    simp [fetchDocumentationIndex, hok, h]
  · intro hok h
    simp [fetchDocumentationIndex, hok, h]
  · intro attempt
    cases attempt with
    | thrown e => simp [fetchDocumentationIndex]
    | response r =>
        dsimp only [fetchDocumentationIndex]
        split
        · simp
        · split <;> simp
  · intro h
    simp [fetchDocumentationCategories, h]
  · intro h
    have hok : rc.ok = false := by
      simp [FetchResponse.ok, h]
    simp [fetchDocumentationCategories, hok, h]
  · intro hok h
    simp [fetchDocumentationCategories, hok, h]
  · intro attempt
    cases attempt with
    | thrown e => simp [fetchDocumentationCategories]
    | response r =>
        dsimp only [fetchDocumentationCategories]
        split
        · simp
        · split <;> simp

/-- Witness for C8 on concrete responses: a 404 becomes the empty success, a
500 becomes the failure sentinel. -/
theorem fetch_404_empty_success_witness :
    fetchDocumentationIndex
        (FetchAttempt.response ⟨404, ⟨[⟨"Get_Started", ["Introduction"]⟩]⟩⟩) =
      FetchValue.data ⟨[]⟩ ∧
    fetchDocumentationIndex (FetchAttempt.response ⟨500, ⟨[]⟩⟩) =
      FetchValue.bool false ∧
    fetchDocumentationCategories (FetchAttempt.response ⟨404, ⟨[]⟩⟩) =
      FetchValue.data ⟨[]⟩ := by
  have h := fetch_404_empty_success
    ⟨404, ⟨[⟨"Get_Started", ["Introduction"]⟩]⟩⟩
    (⟨404, ⟨[]⟩⟩ : FetchResponse DocumentationCategoriesRepsponse) "network error"
  have h2 := fetch_404_empty_success
    (⟨500, ⟨[]⟩⟩ : FetchResponse DocumentationIndexResponse)
    (⟨404, ⟨[]⟩⟩ : FetchResponse DocumentationCategoriesRepsponse) "network error"
  exact ⟨h.2.1 rfl, h2.2.2.1 (by decide) (by decide), h.2.2.2.2.2.2.1 rfl⟩

/-- Claim C2: for every request to `/getRecommendedItems/:language/:type` and
every successful request to `/refresh/:version/:language`, each
recommended-items list in the JSON response is non-empty: whenever the
backend accessor returns an empty list, the response contains instead the
one-element placeholder list whose single item has id 1 and title
`"None_Available"`. -/
theorem recommended_items_never_empty (gi : IndexAccessor) (gri : RecommendedAccessor)
    (version language type_ : String) :
    placeholder.id = 1 ∧ placeholder.title = "None_Available" ∧
    (gri language type_ = Sum.inr [] →
      getRecommendedItemsRoute gri language type_ = RouteResponse.json [placeholder]) ∧
    (∀ l, getRecommendedItemsRoute gri language type_ = RouteResponse.json l → l ≠ []) ∧
    (∀ b, (refreshRoute gi gri version language).response = RouteResponse.json b →
      b.recommendedDocItems ≠ [] ∧ b.recommendedGuideItems ≠ [] ∧
      (gri language "Doc" = Sum.inr [] → b.recommendedDocItems = [placeholder]) ∧
      (gri language "Guide" = Sum.inr [] → b.recommendedGuideItems = [placeholder])) := by
  refine ⟨rfl, rfl, ?_, ?_, ?_⟩
  · intro h
    simp [getRecommendedItemsRoute, h]
  · intro l hl
    cases hg : gri language type_ with
    | inl m =>
        simp [getRecommendedItemsRoute, hg] at hl
    | inr data =>
        simp only [getRecommendedItemsRoute, hg, RouteResponse.json.injEq] at hl
        subst hl
        by_cases hd : data.length = 0
        · simp [hd]
        · simp only [if_neg hd]
          intro hnil
          exact hd (by simp [hnil])
  · intro b hb
    cases h1 : gi version language "Doc" with
    | inl m => simp [refreshRoute, h1] at hb
    | inr docIndex =>
    cases h2 : gi version language "Guide" with
    | inl m => simp [refreshRoute, h1, h2] at hb
    | inr guideIndex =>
    cases h3 : gri language "Doc" with
    | inl m => simp [refreshRoute, h1, h2, h3] at hb
    | inr recommendedDocItems =>
    cases h4 : gri language "Guide" with
    | inl m => simp [refreshRoute, h1, h2, h3, h4] at hb
    | inr recommendedGuideItems =>
        simp only [refreshRoute, h1, h2, h3, h4, RouteResponse.json.injEq] at hb
        subst hb
        refine ⟨?_, ?_, ?_, ?_⟩
        · by_cases hd : recommendedDocItems.length = 0
          · simp [hd]
          · simp only [if_neg hd]
            intro hnil
            exact hd (by simp [hnil])
        · by_cases hd : recommendedGuideItems.length = 0
          · simp [hd]
          · simp only [if_neg hd]
            intro hnil
            exact hd (by simp [hnil])
        · intro he
          have hnil : recommendedDocItems = [] := by
            injection he
          subst hnil
          simp
        · intro he
          have hnil : recommendedGuideItems = [] := by
            injection he
          subst hnil
          simp

/-- Witness for C2 on a concrete empty recommended-items accessor. -/
theorem recommended_items_never_empty_witness :
    getRecommendedItemsRoute exampleEmptyRecommendedAccessor "en-US" "Doc" =
      RouteResponse.json [placeholder] ∧
    placeholder.id = 1 ∧ placeholder.title = "None_Available" := by
  have h := recommended_items_never_empty exampleIndexAccessor
    exampleEmptyRecommendedAccessor "v1" "en-US" "Doc"
  exact ⟨h.2.2.1 rfl, h.1, h.2.1⟩

/-- Claim C7: the `/refresh/:version/:language` handler fetches the Doc
index, the Guide index, the Doc recommended items and the Guide recommended
items in that order, responds with the first numeric (error) result as a bare
status code without performing any of the later fetches or sending a JSON
body, and only when all four results are non-numeric responds with the
combined JSON object (with empty recommended lists replaced by the
placeholder list). -/
theorem refreshRoute_sequential_short_circuit (gi : IndexAccessor)
    (gri : RecommendedAccessor) (version language : String) (n : Nat) :
    (gi version language "Doc" = Sum.inl n →
      refreshRoute gi gri version language =
        ⟨RouteResponse.status n, [AccessorCall.indexCall version language "Doc"]⟩) ∧
    (∀ docIndex, gi version language "Doc" = Sum.inr docIndex →
      gi version language "Guide" = Sum.inl n →
      refreshRoute gi gri version language =
        ⟨RouteResponse.status n,
          [AccessorCall.indexCall version language "Doc",
           AccessorCall.indexCall version language "Guide"]⟩) ∧
    (∀ docIndex guideIndex, gi version language "Doc" = Sum.inr docIndex →
      gi version language "Guide" = Sum.inr guideIndex →
      gri language "Doc" = Sum.inl n →
      refreshRoute gi gri version language =
        ⟨RouteResponse.status n,
          [AccessorCall.indexCall version language "Doc",
           AccessorCall.indexCall version language "Guide",
           AccessorCall.recommendedCall language "Doc"]⟩) ∧
    (∀ docIndex guideIndex recommendedDocItems,
      gi version language "Doc" = Sum.inr docIndex →
      gi version language "Guide" = Sum.inr guideIndex →
      gri language "Doc" = Sum.inr recommendedDocItems →
      gri language "Guide" = Sum.inl n →
      refreshRoute gi gri version language =
        ⟨RouteResponse.status n,
          [AccessorCall.indexCall version language "Doc",
           AccessorCall.indexCall version language "Guide",
           AccessorCall.recommendedCall language "Doc",
           AccessorCall.recommendedCall language "Guide"]⟩) ∧
    (∀ docIndex guideIndex recommendedDocItems recommendedGuideItems,
      gi version language "Doc" = Sum.inr docIndex →
      gi version language "Guide" = Sum.inr guideIndex →
      gri language "Doc" = Sum.inr recommendedDocItems →
      gri language "Guide" = Sum.inr recommendedGuideItems →
      refreshRoute gi gri version language =
        ⟨RouteResponse.json
            ⟨docIndex, guideIndex,
              if recommendedDocItems.length = 0 then
                recommendedDocItems ++ [placeholder]
              else recommendedDocItems,
              if recommendedGuideItems.length = 0 then
                recommendedGuideItems ++ [placeholder]
              else recommendedGuideItems⟩,
          [AccessorCall.indexCall version language "Doc",
           AccessorCall.indexCall version language "Guide",
           AccessorCall.recommendedCall language "Doc",
           AccessorCall.recommendedCall language "Guide"]⟩) := by
  refine ⟨?_, ?_, ?_, ?_, ?_⟩
  · intro h1
    simp [refreshRoute, h1]
  · intro docIndex h1 h2
    simp [refreshRoute, h1, h2]
  · intro docIndex guideIndex h1 h2 h3
    simp [refreshRoute, h1, h2, h3]
  · intro docIndex guideIndex recommendedDocItems h1 h2 h3 h4
    simp [refreshRoute, h1, h2, h3, h4]
  · intro docIndex guideIndex recommendedDocItems recommendedGuideItems h1 h2 h3 h4
    simp [refreshRoute, h1, h2, h3, h4]

/-- Witness for C7: a failing index accessor short-circuits with one call; a
fully successful pair of accessors produces the combined JSON after all four
calls. -/
theorem refreshRoute_sequential_short_circuit_witness :
    refreshRoute exampleErrorIndexAccessor exampleEmptyRecommendedAccessor "v1" "en-US" =
      ⟨RouteResponse.status 404, [AccessorCall.indexCall "v1" "en-US" "Doc"]⟩ ∧
    refreshRoute exampleIndexAccessor exampleEmptyRecommendedAccessor "v1" "en-US" =
      ⟨RouteResponse.json
          ⟨[⟨"Get_Started", ["Introduction"]⟩], [⟨"Guides", ["Setup"]⟩],
            [placeholder], [placeholder]⟩,
        [AccessorCall.indexCall "v1" "en-US" "Doc",
         AccessorCall.indexCall "v1" "en-US" "Guide",
         AccessorCall.recommendedCall "en-US" "Doc",
         AccessorCall.recommendedCall "en-US" "Guide"]⟩ := by
  constructor
  · exact (refreshRoute_sequential_short_circuit exampleErrorIndexAccessor
      exampleEmptyRecommendedAccessor "v1" "en-US" 404).1 rfl
  · have h := (refreshRoute_sequential_short_circuit exampleIndexAccessor
      exampleEmptyRecommendedAccessor "v1" "en-US" 0).2.2.2.2
      [⟨"Get_Started", ["Introduction"]⟩] [⟨"Guides", ["Setup"]⟩] [] []
      (by decide) (by decide) rfl rfl
    simpa using h

end BotWebsite
